import Mathlib

/-!
Formal model of the scoring pipeline in
`validator-api/validator_api/score.py` of the omegalabs-bittensor-subnet
repository.

Modelling conventions:
* Python floats are modelled as exact rationals (`ℚ`); machine timestamps as `ℤ`.
* External collaborators (the imagebind embedding service, the torch cosine
  similarity, the Pinecone vector index, the media downloader, the random
  number generator and the proxy pool) are modelled as oracle fields of an
  `Env` record; the pipeline code itself is translated statement by statement.
* Fallible code returns `Except PyErr`; a Python exception that the source
  does not catch is modelled as an `Except.error`.
* `MIN_VIDEO_LENGTH` and `MAX_VIDEO_LENGTH` are imported by the source from
  `omega/constants.py`, which is not part of the two source files; their
  concrete values are therefore left as parameters (`Env` fields).  Likewise
  `video_utils.is_valid_id` is modelled as an abstract validity predicate.
-/

/-- One entry of `videos.video_metadata` (`omega.protocol.VideoMetadata`):
identifier, start and end timestamps, description text and the three claimed
embedding vectors. -/
structure VideoMetadata where
  video_id : String
  start_time : ℤ
  end_time : ℤ
  description : String
  video_emb : List ℚ
  audio_emb : List ℚ
  description_emb : List ℚ
deriving DecidableEq

/-- The request record (`omega.protocol.Videos`): query text, requested count
`num_videos` and the ordered metadata sequence. -/
structure Videos where
  query : String
  num_videos : ℕ
  video_metadata : List VideoMetadata
deriving DecidableEq

/-- Three parallel sequences of embedding vectors, index aligned with a
metadata sequence (`omega.imagebind_wrapper.Embeddings`). -/
structure Embeddings where
  video : List (List ℚ)
  audio : List (List ℚ)
  description : List (List ℚ)
deriving DecidableEq

/-- Names of function-local Python variables that the source reads before any
assignment to them has executed. -/
inductive LocalName
  | is_similar
  | strict_is_similar
  | random_metadata
deriving DecidableEq

/-- Uncaught Python exceptions of the modelled code: `unboundLocal` is an
`UnboundLocalError` or `NameError` for the given local name, `indexError` an
out-of-range sequence subscript. -/
inductive PyErr
  | unboundLocal (n : LocalName)
  | indexError
deriving DecidableEq

/-- Outcome of one `video_utils.download_video` attempt, as distinguished by
the `try`/`except` arms of `get_random_video`: a downloaded file handle, the
`IPBlockedException`, the `FakeVideoException`, an `asyncio.TimeoutError`, or
a `None` return value (any other failure of the fetch helper). -/
inductive DLResult
  | success (file : ℕ)
  | blocked
  | fake
  | timeout
  | failed
deriving DecidableEq

/-- The dictionary shapes built by `_run_video_scoring`: the punishment/floor
short form or the extended five-field form. -/
inductive ScoreResponse
  | short (score : ℚ)
  | extended (is_unique : List Bool) (description_relevance_scores : List ℚ)
      (query_relevance_scores : List ℚ) (novelty_score : ℚ) (score : ℚ)
deriving DecidableEq

/-- The `"score"` entry of a response dictionary; both shapes carry one. -/
def ScoreResponse.score : ScoreResponse → ℚ
  | .short s => s
  | .extended _ _ _ _ s => s

/-- A Python value returned to the caller of an entry point: either one of the
response dictionaries or a bare number. -/
inductive PyValue
  | dict (r : ScoreResponse)
  | num (x : ℚ)
deriving DecidableEq

/-- Whether a returned Python value is a dictionary. -/
def PyValue.isDict : PyValue → Bool
  | .dict _ => true
  | .num _ => false

/-- Oracle record for every external collaborator of `score.py`.  A fixed
`Env` describes one deterministic resolution of all external calls made while
one batch is scored. -/
structure Env where
  /-- `video_utils.is_valid_id` (outside the two source files); modelled from
  the spec as an abstract validity predicate on identifiers. -/
  is_valid_id : String → Bool
  /-- `torch.nn.functional.cosine_similarity` on two vectors. -/
  cossim : List ℚ → List ℚ → ℚ
  /-- `PINECONE_INDEX.query(vector, top_k)`: the ranked list of match scores
  returned by the external vector index. -/
  pc_matches : List ℚ → ℕ → List ℚ
  /-- `imagebind.embed_text_async([text])`: the embedding of one text. -/
  embed_text : String → List ℚ
  /-- `imagebind.embed_async([desc], [video])`: video, audio and description
  embeddings of downloaded media. -/
  embed_media : String → ℕ → List ℚ × List ℚ × List ℚ
  /-- Outcome of a download attempt for a candidate (absorbs the proxy choice
  of `get_proxy_url` and the `VIDEO_DOWNLOAD_TIMEOUT` clock). -/
  dl : VideoMetadata → DLResult
  /-- The stream of values produced by `random.randint(0, len(pool) - 1)`;
  entry `i` is reduced modulo the pool size at draw `i`. -/
  picks : List ℕ
  /-- The value behind `random.choice(metadata)` on the no-audit path. -/
  choice : ℕ
  /-- Outcome of the audit gate `config.CHECK_PROBABILITY > random.random()`. -/
  check_video : Bool
  /-- `str(uuid.uuid4())` for the n-th generated identifier. -/
  uuid : ℕ → String
  /-- `omega.constants.MIN_VIDEO_LENGTH` (value not in the source files). -/
  MIN_VIDEO_LENGTH : ℤ
  /-- `omega.constants.MAX_VIDEO_LENGTH` (value not in the source files). -/
  MAX_VIDEO_LENGTH : ℤ

/-- `DIFFERENCE_THRESHOLD = 0.05` (score.py line 20). -/
def DIFFERENCE_THRESHOLD : ℚ := 0.05

/-- `SIMILARITY_THRESHOLD = 1 - DIFFERENCE_THRESHOLD` (score.py line 21). -/
def SIMILARITY_THRESHOLD : ℚ := 1 - DIFFERENCE_THRESHOLD

/-- `MIN_SCORE = 0.005` (score.py line 25). -/
def MIN_SCORE : ℚ := 0.005

/-- `FAKE_VIDEO_PUNISHMENT = -5.0` (score.py line 26). -/
def FAKE_VIDEO_PUNISHMENT : ℚ := -5.0

/-- `query_pinecone` (score.py lines 29-35): query the index and return
one minus the score of the match at `select_idx`; a response with at most
`select_idx` ranked entries makes the subscript raise `IndexError`. -/
def query_pinecone (pc_matches : List ℚ → ℕ → List ℚ) (vector : List ℚ)
    (top_k select_idx : ℕ) : Except PyErr ℚ :=
  match (pc_matches vector top_k).get? select_idx with
  | some s => .ok (1 - s)
  | none => .error .indexError

/-- The `asyncio.gather` of per-embedding `query_pinecone` calls inside
`compute_novelty_score` (score.py lines 45-52), with results in input order. -/
def gather_scores (pc_matches : List ℚ → ℕ → List ℚ) (top_k select_idx : ℕ) :
    List (List ℚ) → Except PyErr (List ℚ)
  | [] => .ok []
  | e :: rest =>
    match query_pinecone pc_matches e top_k select_idx with
    | .error err => .error err
    | .ok s =>
      match gather_scores pc_matches top_k select_idx rest with
      | .error err => .error err
      | .ok ss => .ok (s :: ss)

/-- `compute_novelty_score` (score.py lines 38-58): `top_k` is 2 and the
second match is selected when `already_uploaded`, else 1 and the first match;
an item is too similar when its novelty is below `DIFFERENCE_THRESHOLD`; the
total is the sum of the novelty scores of the items that are not too
similar. -/
def compute_novelty_score (pc_matches : List ℚ → ℕ → List ℚ)
    (video_embs : List (List ℚ)) (already_uploaded : Bool) :
    Except PyErr (ℚ × List Bool) :=
  let top_k : ℕ := if already_uploaded then 2 else 1
  let select_idx : ℕ := if already_uploaded then 1 else 0
  match gather_scores pc_matches top_k select_idx video_embs with
  | .error err => .error err
  | .ok novelty_scores =>
    let is_too_similar := novelty_scores.map (fun s => decide (s < DIFFERENCE_THRESHOLD))
    let novelty_score :=
      (((novelty_scores.zip is_too_similar).filter (fun p => !p.2)).map Prod.fst).sum
    .ok (novelty_score, is_too_similar)

/-- `upload_to_pinecone` (score.py lines 61-78): the upsert itself is an
external side effect; what the pipeline keeps is the list of generated
identifiers, one fresh uuid per metadata entry. -/
def upload_to_pinecone (uuid : ℕ → String) (metadata : List VideoMetadata) :
    List String :=
  (List.range metadata.length).map uuid

/-- The boolean-mask compaction `[x for x, t in zip(xs, mask) if not t]` used
at score.py lines 221 and 223; for equal lengths it coincides with the torch
mask indexing `xs[~mask]` used at lines 84-86. -/
def maskFilter (mask : List Bool) (xs : List α) : List α :=
  ((xs.zip mask).filter (fun p => !p.2)).map Prod.fst

/-- `filter_embeddings` (score.py lines 81-87): compact all three embedding
sequences with the same `is_too_similar` mask. -/
def filter_embeddings (embeddings : Embeddings) (is_too_similar : List Bool) :
    Embeddings :=
  ⟨maskFilter is_too_similar embeddings.video,
   maskFilter is_too_similar embeddings.audio,
   maskFilter is_too_similar embeddings.description⟩

/-- Module-level `is_similar` (score.py lines 90-94): loose thresholded cosine
similarity. -/
def is_similar (cossim : List ℚ → List ℚ → ℚ) (emb_1 emb_2 : List ℚ) : Bool :=
  decide (cossim emb_1 emb_2 > SIMILARITY_THRESHOLD)

/-- Module-level `strict_is_similar` (score.py lines 97-98):
`torch.allclose(emb_1, emb_2, atol=1e-4)`, i.e. same shape and componentwise
closeness within `atol + rtol * abs(other)` with the default `rtol = 1e-5`. -/
def strict_is_similar (emb_1 emb_2 : List ℚ) : Bool :=
  decide (emb_1.length = emb_2.length) &&
    (emb_1.zip emb_2).all (fun p => decide (|p.1 - p.2| ≤ 0.0001 + 0.00001 * |p.2|))

/-- `metadata_check` (score.py lines 101-108): keep the items whose duration
`end_time - start_time` is at most `MAX_VIDEO_LENGTH` and at least
`MIN_VIDEO_LENGTH`, in input order. -/
def metadata_check (MIN_VIDEO_LENGTH MAX_VIDEO_LENGTH : ℤ)
    (metadata : List VideoMetadata) : List VideoMetadata :=
  metadata.filter (fun video_metadata =>
    decide (video_metadata.end_time - video_metadata.start_time ≤ MAX_VIDEO_LENGTH) &&
    decide (MIN_VIDEO_LENGTH ≤ video_metadata.end_time - video_metadata.start_time))

/-- Reading a Python function-local variable: `some` if it has been assigned,
otherwise the read raises. -/
def readLocal (slot : Option α) (n : LocalName) : Except PyErr α :=
  match slot with
  | some v => .ok v
  | none => .error (.unboundLocal n)

/-- `random_check` (score.py lines 152-175).  In the source, the assignments
`is_similar = is_similar(...)` (line 157) and
`strict_is_similar = strict_is_similar(...)` (lines 158, 169-173) make both
names function-local for the whole body, so every read of them - including
the calls on those same lines and on lines 164-168 - refers to a local that
has not been assigned yet.  The model keeps the two local slots explicitly:
both start unassigned and every call goes through `readLocal`. -/
def random_check (env : Env) (random_meta_and_vid : VideoMetadata × Option ℕ) :
    Except PyErr Bool :=
  let local_is_similar : Option (List ℚ → List ℚ → Bool) := none
  let local_strict_is_similar : Option (List ℚ → List ℚ → Bool) := none
  match random_meta_and_vid with
  | (random_metadata, none) =>
    let desc_embeddings := env.embed_text random_metadata.description
    (readLocal local_is_similar .is_similar).bind fun f =>
      let is_similar_value := f desc_embeddings random_metadata.description_emb
      (readLocal local_strict_is_similar .strict_is_similar).bind fun g =>
        let _strict_value := g desc_embeddings random_metadata.description_emb
        .ok is_similar_value
  | (random_metadata, some file) =>
    let embeddings := env.embed_media random_metadata.description file
    (readLocal local_is_similar .is_similar).bind fun f =>
      let is_simlar_value :=
        f embeddings.1 random_metadata.video_emb &&
        f embeddings.2.1 random_metadata.audio_emb &&
        f embeddings.2.2 random_metadata.description_emb
      (readLocal local_strict_is_similar .strict_is_similar).bind fun g =>
        let _strict_value :=
          g embeddings.1 random_metadata.video_emb &&
          g embeddings.2.1 random_metadata.audio_emb &&
          g embeddings.2.2 random_metadata.description_emb
        .ok is_simlar_value

/-- The candidate-drawing `while` loop of `get_random_video` (score.py lines
120-147), specialised to `check_video = True`.  The first component is the
return value of the function; the second component records the candidates in
the order they were drawn (`random_metadata = metadata_copy.pop(idx)`), which
the loop itself never revisits.  On an empty pool the loop body never runs
and the final read of `random_metadata` raises a `NameError`; otherwise a
successful fetch returns the candidate with its file, `IPBlockedException`
returns the candidate without media, `FakeVideoException` returns `None`
(punish), and a timeout or a `None` download result moves on to the next
remaining candidate. -/
def grv_loop (dl : VideoMetadata → DLResult) :
    List ℕ → List VideoMetadata → List VideoMetadata →
    Except PyErr (Option (VideoMetadata × Option ℕ)) × List VideoMetadata
  | _picks, [], tried =>
    match tried.getLast? with
    | some random_metadata => (.ok (some (random_metadata, none)), tried)
    | none => (.error (.unboundLocal .random_metadata), tried)
  | picks, x :: xs, tried =>
    let idx := picks.headD 0 % (x :: xs).length
    let random_metadata := (x :: xs).getD idx x
    match dl random_metadata with
    | .success file => (.ok (some (random_metadata, some file)), tried ++ [random_metadata])
    | .blocked => (.ok (some (random_metadata, none)), tried ++ [random_metadata])
    | .fake => (.ok none, tried ++ [random_metadata])
    | .timeout => grv_loop dl picks.tail ((x :: xs).eraseIdx idx) (tried ++ [random_metadata])
    | .failed => grv_loop dl picks.tail ((x :: xs).eraseIdx idx) (tried ++ [random_metadata])
termination_by picks pool tried => pool.length
decreasing_by
  all_goals rw [List.length_eraseIdx_of_lt (Nat.mod_lt _ (by simp))]
  all_goals simp

/-- `get_random_video` (score.py lines 115-149): without an audit,
`random.choice` picks one item and returns it without media (raising
`IndexError` on an empty sequence); with an audit, run the drawing loop. -/
def get_random_video (dl : VideoMetadata → DLResult) (picks : List ℕ)
    (choice : ℕ) (metadata : List VideoMetadata) (check_video : Bool) :
    Except PyErr (Option (VideoMetadata × Option ℕ)) :=
  if !check_video then
    match metadata.get? (choice % metadata.length) with
    | some random_metadata => .ok (some (random_metadata, none))
    | none => .error .indexError
  else (grv_loop dl picks metadata []).1

/-- Model of the external vector index used by `get_num_unique_videos`: the
index stores a set of vectors, scores a query against each stored vector with
the similarity function `sim`, and returns the `top_k` highest scores in
descending order. -/
def topMatches (sim : List ℚ → List ℚ → ℚ) (stored : List (List ℚ))
    (vector : List ℚ) (top_k : ℕ) : List ℚ :=
  ((stored.map (sim vector)).insertionSort (· ≥ ·)).take top_k

/-- `get_num_unique_videos` (score.py lines 178-186): run the novelty
computation with `already_uploaded = False` (single-match queries, no upsert)
and return `sum(not is_sim for is_sim in is_too_similar)`. -/
def get_num_unique_videos (sim : List ℚ → List ℚ → ℚ) (stored : List (List ℚ))
    (videos : Videos) : Except PyErr ℕ :=
  let metadata := videos.video_metadata
  let video_embs := metadata.map VideoMetadata.video_emb
  match compute_novelty_score (topMatches sim stored) video_embs false with
  | .error err => .error err
  | .ok (_novelty_score, is_too_similar) =>
    .ok (is_too_similar.countP (fun is_sim => !is_sim))

/-- The tail of `_run_video_scoring` (score.py lines 210-261), entered once
the authenticity stage has produced `passed_check = True`: build the stacked
embeddings, generate index identifiers (mutating pass only), run the novelty
stage with `already_uploaded = not is_check_only`, compact every sequence
with the same `is_too_similar` mask, compute both relevance sequences on the
surviving embeddings, aggregate and clamp.  The dataset-sink enqueue and the
log prints have no observable effect on the response. -/
def scoring_after_check (env : Env) (metadata : List VideoMetadata)
    (num_videos : ℕ) (query_emb : List ℚ) (is_check_only : Bool) :
    Except PyErr ScoreResponse :=
  let embeddings : Embeddings :=
    ⟨metadata.map VideoMetadata.video_emb,
     metadata.map VideoMetadata.audio_emb,
     metadata.map VideoMetadata.description_emb⟩
  let video_ids := upload_to_pinecone env.uuid metadata
  match compute_novelty_score env.pc_matches embeddings.video (!is_check_only) with
  | .error err => .error err
  | .ok (novelty_score, is_too_similar) =>
    let embeddings2 := filter_embeddings embeddings is_too_similar
    let _metadata2 := maskFilter is_too_similar metadata
    let _video_ids2 := maskFilter is_too_similar video_ids
    let description_relevance_scores :=
      (embeddings2.video.zip embeddings2.description).map (fun p => env.cossim p.1 p.2)
    let query_relevance_scores :=
      embeddings2.video.map (fun v => env.cossim v query_emb)
    let score :=
      (description_relevance_scores.sum + query_relevance_scores.sum + novelty_score)
        / 3 / (num_videos : ℚ)
    let score := max score MIN_SCORE
    .ok (.extended (is_too_similar.map (fun is_sim => !is_sim))
          description_relevance_scores query_relevance_scores novelty_score score)

/-- `_run_video_scoring` (score.py lines 189-261): identifier-validity scan
over the whole submitted sequence, length filter and truncation to
`num_videos`, empty-batch floor, candidate sampling, authenticity check, then
the post-check stages. -/
def _run_video_scoring (env : Env) (videos : Videos) (is_check_only : Bool) :
    Except PyErr ScoreResponse :=
  if videos.video_metadata.any (fun video => !env.is_valid_id video.video_id) then
    .ok (.short FAKE_VIDEO_PUNISHMENT)
  else
    let metadata :=
      (metadata_check env.MIN_VIDEO_LENGTH env.MAX_VIDEO_LENGTH
        videos.video_metadata).take videos.num_videos
    if metadata.length = 0 then .ok (.short MIN_SCORE)
    else
      match get_random_video env.dl env.picks env.choice metadata env.check_video with
      | .error err => .error err
      | .ok none => .ok (.short FAKE_VIDEO_PUNISHMENT)
      | .ok (some random_meta_and_vid) =>
        match random_check env random_meta_and_vid with
        | .error err => .error err
        | .ok passed_check =>
          if !passed_check then .ok (.short FAKE_VIDEO_PUNISHMENT)
          else
            let query_emb := env.embed_text videos.query
            scoring_after_check env metadata videos.num_videos query_emb is_check_only

/-- `score_videos_for_testing` (score.py lines 264-265): the dry-run entry
point returns the response dictionary itself. -/
def score_videos_for_testing (env : Env) (videos : Videos) :
    Except PyErr PyValue :=
  match _run_video_scoring env videos true with
  | .error err => .error err
  | .ok r => .ok (.dict r)

/-- `score_and_upload_videos` (score.py lines 268-270): the mutating entry
point extracts and returns `scores_dict["score"]`, a bare number. -/
def score_and_upload_videos (env : Env) (videos : Videos) :
    Except PyErr PyValue :=
  match _run_video_scoring env videos false with
  | .error err => .error err
  | .ok scores_dict => .ok (.num scores_dict.score)

/-- The per-item novelty value the pipeline derives from the index response:
one minus the score of the match that `compute_novelty_score` selects
(second-ranked of a `top_k = 2` query when the items were already uploaded,
first-ranked of a `top_k = 1` query otherwise). -/
def novelty_of (pc_matches : List ℚ → ℕ → List ℚ) (already_uploaded : Bool)
    (e : List ℚ) : ℚ :=
  1 - (pc_matches e (if already_uploaded then 2 else 1)).getD
        (if already_uploaded then 1 else 0) 0

/-- A 10 second item with a valid identifier. -/
def mGood : VideoMetadata := ⟨ "good1", 0, 10, "d", [1, 0], [1, 0], [1, 0]⟩

/-- A second 10 second item with the same video embedding as `mGood`. -/
def mGoodDup : VideoMetadata := ⟨ "good9", 0, 10, "d", [1, 0], [1, 0], [1, 0]⟩

/-- An item sitting exactly at the minimum duration bound of the test
environment. -/
def mBoundary : VideoMetadata := ⟨ "good3", 0, 5, "d", [1, 0], [1, 0], [1, 0]⟩

/-- A valid-id item whose duration exceeds every reasonable bound. -/
def mLong : VideoMetadata := ⟨ "good4", 0, 1000, "d", [1, 0], [1, 0], [1, 0]⟩

/-- A second overlong valid-id item. -/
def mLongB : VideoMetadata := ⟨ "good5", 0, 2000, "d", [1, 0], [1, 0], [1, 0]⟩

/-- An overlong item whose identifier fails the validity predicate of the
test environment. -/
def mBadId : VideoMetadata := ⟨ "bad", 0, 1000, "d", [1, 0], [1, 0], [1, 0]⟩

/-- A concrete deterministic environment: identifiers are valid unless they
equal "bad", the index answers every `top_k = 2` query with scores
`[1, 1/4]` and every other query with `[1/4]`, every download attempt times
out, and the length bounds are 5 and 60 seconds. -/
def testEnv : Env :=
  ⟨fun s => !(s == "bad"),
   fun a b => if a = b then 1 else 1/2,
   fun _ k => if k = 2 then [1, 1/4] else [1/4],
   fun _ => [1, 0],
   fun _ _ => ([1, 0], [1, 0], [1, 0]),
   fun _ => .timeout,
   [0, 0, 0],
   0,
   true,
   fun n => toString n,
   5, 60⟩

/-- Like `testEnv` but the index reports every queried vector as a
near-duplicate (similarity 1 for both ranked matches). -/
def dupEnv : Env :=
  ⟨fun s => !(s == "bad"),
   fun a b => if a = b then 1 else 1/2,
   fun _ _ => [1, 1],
   fun _ => [1, 0],
   fun _ _ => ([1, 0], [1, 0], [1, 0]),
   fun _ => .timeout,
   [0, 0, 0],
   0,
   true,
   fun n => toString n,
   5, 60⟩

/-- A batch whose single item is overlong: nothing survives the filter. -/
def vEmptyFilter : Videos := ⟨ "q", 1, [mLong]⟩

/-- Two overlong valid items: still nothing survives the filter. -/
def vEmptyFilterB : Videos := ⟨ "q", 1, [mLong, mLongB]⟩

/-- An overlong valid item plus an overlong invalid-id item: the extra item
cannot be among the first `num_videos` filter survivors. -/
def vBadBeyond : Videos := ⟨ "q", 1, [mLong, mBadId]⟩

/-- A batch containing only an overlong invalid-id item. -/
def vBadOnly : Videos := ⟨ "q", 1, [mBadId]⟩

/-- A batch of one well-formed item. -/
def vGoodOne : Videos := ⟨ "q", 1, [mGood]⟩

/-- Similarity oracle that reports 1 for identical vectors and 0 otherwise. -/
def simEq : List ℚ → List ℚ → ℚ := fun a b => if a = b then 1 else 0

/-- An index holding a single vector orthogonal (under `simEq`) to the test
items. -/
def storedOrth : List (List ℚ) := [[0, 1]]

/-- A batch of two items with identical video embeddings, neither of which is
present in `storedOrth`. -/
def vDupPair : Videos := ⟨ "q", 2, [mGood, mGoodDup]⟩

/-- The description relevance sequence of score.py lines 227-229: rowwise
cosine similarity between the mask-compacted video embeddings and the
mask-compacted description embeddings. -/
def description_relevance_of (env : Env) (flags : List Bool)
    (metadata : List VideoMetadata) : List ℚ :=
  ((maskFilter flags (metadata.map VideoMetadata.video_emb)).zip
     (maskFilter flags (metadata.map VideoMetadata.description_emb))).map
    (fun p => env.cossim p.1 p.2)

/-- The query relevance sequence of score.py lines 230-232: cosine similarity
between each mask-compacted video embedding and the query embedding. -/
def query_relevance_of (env : Env) (flags : List Bool)
    (metadata : List VideoMetadata) (query_emb : List ℚ) : List ℚ :=
  (maskFilter flags (metadata.map VideoMetadata.video_emb)).map
    (fun v => env.cossim v query_emb)

lemma gather_scores_map (pc : List ℚ → ℕ → List ℚ) (k i : ℕ) :
    ∀ embs : List (List ℚ), (∀ e ∈ embs, i < (pc e k).length) →
      gather_scores pc k i embs = .ok (embs.map (fun e => 1 - (pc e k).getD i 0))
  | [], _ => rfl
  | e :: rest, h => by
    have he : i < (pc e k).length := h e (List.mem_cons_self _ _)
    have hr := gather_scores_map pc k i rest (fun x hx => h x (List.mem_cons_of_mem _ hx))
    simp only [gather_scores, query_pinecone, List.get?_eq_get he, hr, List.map_cons]
    rw [List.getD_eq_get _ _ he]

lemma zip_filter_map_eq (p : ℚ → Bool) :
    ∀ l : List ℚ,
      (((l.zip (l.map p)).filter (fun x => !x.2)).map Prod.fst) = l.filter (fun s => !p s)
  | [] => rfl
  | a :: t => by
    by_cases h : p a <;>
      simp [List.filter_cons, h, zip_filter_map_eq p t]

/-- Claim C1: the claim states that the authenticity check passes exactly when
the loose cosine gate succeeds on every required modality and that a failed
loose match returns the punishment immediately.  The code cannot do this: the
assignments on score.py lines 157-158 and 164-173 shadow the module-level
`is_similar` and `strict_is_similar`, so `random_check` raises
`UnboundLocalError` on every input, on both the description-only and the full
media path, before any comparison is made. -/
theorem random_check_unbound_local (env : Env) (mv : VideoMetadata × Option ℕ) :
    random_check env mv = .error (.unboundLocal .is_similar) := by
  obtain ⟨m, v⟩ := mv
  cases v <;> rfl

/-- Claim C3: each item's novelty is one minus the score of the selected
match (second-ranked of a `top_k = 2` query when the embeddings were already
uploaded, i.e. on a mutating pass; first-ranked of a `top_k = 1` query on a
dry-run pass), an item is flagged too similar exactly when that novelty is
below `DIFFERENCE_THRESHOLD = 0.05`, and the batch total is the plain sum of
the novelty values of the unflagged items. -/
theorem novelty_score_spec (pc_matches : List ℚ → ℕ → List ℚ)
    (embs : List (List ℚ)) (already_uploaded : Bool)
    (h : ∀ e ∈ embs,
      (if already_uploaded then 1 else 0) <
        (pc_matches e (if already_uploaded then 2 else 1)).length) :
    compute_novelty_score pc_matches embs already_uploaded =
      .ok (((embs.map (novelty_of pc_matches already_uploaded)).filter
              (fun s => !decide (s < DIFFERENCE_THRESHOLD))).sum,
           (embs.map (novelty_of pc_matches already_uploaded)).map
              (fun s => decide (s < DIFFERENCE_THRESHOLD))) := by
  unfold compute_novelty_score
  dsimp only
  rw [gather_scores_map _ _ _ embs h]
  dsimp only
  rw [zip_filter_map_eq]
  rfl

/-- Witness for `novelty_score_spec` at a concrete input: one embedding, a
mutating pass, and the `testEnv` index response `[1, 1/4]`. -/
theorem novelty_score_spec_witness :
    (∀ e ∈ [[(1:ℚ), 0]],
        (if true then 1 else 0) <
          (testEnv.pc_matches e (if true then 2 else 1)).length) ∧
    compute_novelty_score testEnv.pc_matches [[(1:ℚ), 0]] true =
      .ok ((([[(1:ℚ), 0]].map (novelty_of testEnv.pc_matches true)).filter
              (fun s => !decide (s < DIFFERENCE_THRESHOLD))).sum,
           ([[(1:ℚ), 0]].map (novelty_of testEnv.pc_matches true)).map
              (fun s => decide (s < DIFFERENCE_THRESHOLD))) := by
  refine ⟨?_, ?_⟩
  · intro e _
    simp [testEnv]
  · exact novelty_score_spec testEnv.pc_matches [[(1:ℚ), 0]] true
      (by intro e _; simp [testEnv])

/-- Claim C4, counterexample to the unconditional termination clause: a batch
whose only item is overlong and carries an invalid identifier leaves the
length filter empty, yet the pipeline returns the punishment constant, not
the floor score, because the identifier-validity scan of score.py line 190
runs before the filter. -/
theorem empty_filter_punished_on_invalid_id :
    (metadata_check testEnv.MIN_VIDEO_LENGTH testEnv.MAX_VIDEO_LENGTH
        vBadOnly.video_metadata).take vBadOnly.num_videos = [] ∧
    _run_video_scoring testEnv vBadOnly false = .ok (.short FAKE_VIDEO_PUNISHMENT) ∧
    _run_video_scoring testEnv vBadOnly false ≠ .ok (.short MIN_SCORE) ∧
    ScoreResponse.short FAKE_VIDEO_PUNISHMENT ≠ ScoreResponse.short MIN_SCORE := by
  have hne : ScoreResponse.short FAKE_VIDEO_PUNISHMENT ≠ ScoreResponse.short MIN_SCORE := by
    simp only [ne_eq, ScoreResponse.short.injEq, FAKE_VIDEO_PUNISHMENT, MIN_SCORE]
    norm_num
  refine ⟨by decide, by rfl, ?_, hne⟩
  intro h
  rw [show _run_video_scoring testEnv vBadOnly false
    = .ok (.short FAKE_VIDEO_PUNISHMENT) from rfl] at h
  exact hne (Except.ok.inj h)

/-- Claim C4 (amended): the filter keeps exactly the items whose duration
lies in the closed interval, boundary values included and values one unit
outside dropped, preserves input order, truncation keeps at most
`num_videos` items, and - provided every submitted identifier passes the
validity scan that precedes the filter - an empty survivor set terminates the
pipeline immediately with the floor score. -/
theorem metadata_filter_spec :
    (∀ (minL maxL : ℤ) (l : List VideoMetadata),
        (metadata_check minL maxL l).Sublist l) ∧
    (∀ (minL maxL : ℤ) (l : List VideoMetadata) (m : VideoMetadata),
        m ∈ metadata_check minL maxL l ↔
          m ∈ l ∧ minL ≤ m.end_time - m.start_time ∧
            m.end_time - m.start_time ≤ maxL) ∧
    (∀ (minL maxL : ℤ) (l : List VideoMetadata) (m : VideoMetadata), m ∈ l →
        minL ≤ maxL →
        (m.end_time - m.start_time = minL ∨ m.end_time - m.start_time = maxL) →
        m ∈ metadata_check minL maxL l) ∧
    (∀ (minL maxL : ℤ) (l : List VideoMetadata) (m : VideoMetadata),
        (m.end_time - m.start_time = minL - 1 ∨
         m.end_time - m.start_time = maxL + 1) →
        m ∉ metadata_check minL maxL l) ∧
    (∀ (minL maxL : ℤ) (l : List VideoMetadata) (n : ℕ),
        ((metadata_check minL maxL l).take n).length ≤ n ∧
        ((metadata_check minL maxL l).take n).Sublist l) ∧
    (∀ (env : Env) (videos : Videos) (is_check_only : Bool),
        (∀ v ∈ videos.video_metadata, env.is_valid_id v.video_id = true) →
        (metadata_check env.MIN_VIDEO_LENGTH env.MAX_VIDEO_LENGTH
            videos.video_metadata).take videos.num_videos = [] →
        _run_video_scoring env videos is_check_only = .ok (.short MIN_SCORE)) := by
  have hmem : ∀ (minL maxL : ℤ) (l : List VideoMetadata) (m : VideoMetadata),
      m ∈ metadata_check minL maxL l ↔
        m ∈ l ∧ minL ≤ m.end_time - m.start_time ∧
          m.end_time - m.start_time ≤ maxL := by
    intro minL maxL l m
    simp only [metadata_check, List.mem_filter, Bool.and_eq_true, decide_eq_true_eq]
    tauto
  refine ⟨fun _ _ _ => List.filter_sublist _, hmem, ?_, ?_, ?_, ?_⟩
  · intro minL maxL l m hm hbound hdur
    exact (hmem minL maxL l m).mpr ⟨hm, by omega, by omega⟩
  · intro minL maxL l m hdur hmem2
    have := (hmem minL maxL l m).mp hmem2
    omega
  · intro minL maxL l n
    refine ⟨?_, (List.take_sublist _ _).trans (List.filter_sublist _)⟩
    simp [List.length_take]
  · intro env videos is_check_only hvalid hfilt
    have hany : videos.video_metadata.any
        (fun video => !env.is_valid_id video.video_id) = false := by
      simp only [List.any_eq_false, Bool.not_eq_true]
      intro v hv
      simp [hvalid v hv]
    unfold _run_video_scoring
    simp only [hany, hfilt]
    rfl

/-- Witness for `metadata_filter_spec` at concrete inputs: the boundary item
of duration exactly 5 survives the `[5, 60]` filter, and the batch whose only
valid item is overlong terminates with the floor score. -/
theorem metadata_filter_spec_witness :
    mBoundary ∈ metadata_check 5 60 [mBoundary] ∧
    _run_video_scoring testEnv vEmptyFilter false = .ok (.short MIN_SCORE) := by
  constructor
  · exact metadata_filter_spec.2.2.1 5 60 [mBoundary] mBoundary (by simp)
      (by norm_num) (Or.inl (by norm_num [mBoundary]))
  · exact metadata_filter_spec.2.2.2.2.2 testEnv vEmptyFilter false
      (by decide) (by decide)

/-- Claim C6, counterexample: two batches with the same query, the same
requested count and the same first-`num_videos` filter survivors (none), but
the second carries an extra invalid-identifier item that no stage after the
validity scan would ever consider; the outcomes differ, so the pipeline does
consider items beyond the first `num_videos` filter survivors. -/
theorem validity_scan_beyond_n :
    vEmptyFilter.query = vBadBeyond.query ∧
    vEmptyFilter.num_videos = vBadBeyond.num_videos ∧
    (metadata_check testEnv.MIN_VIDEO_LENGTH testEnv.MAX_VIDEO_LENGTH
        vEmptyFilter.video_metadata).take vEmptyFilter.num_videos
      = (metadata_check testEnv.MIN_VIDEO_LENGTH testEnv.MAX_VIDEO_LENGTH
          vBadBeyond.video_metadata).take vBadBeyond.num_videos ∧
    _run_video_scoring testEnv vEmptyFilter false = .ok (.short MIN_SCORE) ∧
    _run_video_scoring testEnv vBadBeyond false = .ok (.short FAKE_VIDEO_PUNISHMENT) ∧
    _run_video_scoring testEnv vEmptyFilter false
      ≠ _run_video_scoring testEnv vBadBeyond false := by
  have hne : ScoreResponse.short MIN_SCORE ≠ ScoreResponse.short FAKE_VIDEO_PUNISHMENT := by
    simp only [ne_eq, ScoreResponse.short.injEq, FAKE_VIDEO_PUNISHMENT, MIN_SCORE]
    norm_num
  refine ⟨rfl, rfl, by decide, by rfl, by rfl, ?_⟩
  intro h
  rw [show _run_video_scoring testEnv vEmptyFilter false
      = .ok (.short MIN_SCORE) from rfl,
    show _run_video_scoring testEnv vBadBeyond false
      = .ok (.short FAKE_VIDEO_PUNISHMENT) from rfl] at h
  exact hne (Except.ok.inj h)

/-- Claim C6 (amended): apart from the identifier-validity scan, which reads
every submitted item, the outcome of a scoring run depends only on the query,
the requested count and the first `num_videos` filter survivors: two batches
that agree on those three and both pass the validity scan produce identical
results under the same environment. -/
theorem truncation_determines_outcome (env : Env) (v1 v2 : Videos)
    (is_check_only : Bool)
    (hq : v1.query = v2.query) (hn : v1.num_videos = v2.num_videos)
    (hvalid1 : ∀ v ∈ v1.video_metadata, env.is_valid_id v.video_id = true)
    (hvalid2 : ∀ v ∈ v2.video_metadata, env.is_valid_id v.video_id = true)
    (hfilt : (metadata_check env.MIN_VIDEO_LENGTH env.MAX_VIDEO_LENGTH
                v1.video_metadata).take v1.num_videos
           = (metadata_check env.MIN_VIDEO_LENGTH env.MAX_VIDEO_LENGTH
                v2.video_metadata).take v2.num_videos) :
    _run_video_scoring env v1 is_check_only = _run_video_scoring env v2 is_check_only := by
  have ha1 : v1.video_metadata.any
      (fun video => !env.is_valid_id video.video_id) = false := by
    simp only [List.any_eq_false, Bool.not_eq_true]
    intro v hv
    simp [hvalid1 v hv]
  have ha2 : v2.video_metadata.any
      (fun video => !env.is_valid_id video.video_id) = false := by
    simp only [List.any_eq_false, Bool.not_eq_true]
    intro v hv
    simp [hvalid2 v hv]
  unfold _run_video_scoring
  simp only [ha1, ha2]
  rw [hfilt, hq, hn]

/-- Witness for `truncation_determines_outcome`: two distinct concrete batches
with equal query, count and (empty) survivor prefix give equal outcomes. -/
theorem truncation_determines_outcome_witness :
    vEmptyFilter.query = vEmptyFilterB.query ∧
    vEmptyFilter.num_videos = vEmptyFilterB.num_videos ∧
    _run_video_scoring testEnv vEmptyFilter false
      = _run_video_scoring testEnv vEmptyFilterB false :=
  ⟨rfl, rfl,
   truncation_determines_outcome testEnv vEmptyFilter vEmptyFilterB false rfl rfl
     (by decide) (by decide) (by decide)⟩

lemma scoring_after_check_ok (env : Env) (metadata : List VideoMetadata)
    (num_videos : ℕ) (query_emb : List ℚ) (is_check_only : Bool)
    (nov : ℚ) (flags : List Bool)
    (h : compute_novelty_score env.pc_matches (metadata.map VideoMetadata.video_emb)
          (!is_check_only) = .ok (nov, flags)) :
    scoring_after_check env metadata num_videos query_emb is_check_only =
      .ok (.extended (flags.map (fun b => !b))
            (description_relevance_of env flags metadata)
            (query_relevance_of env flags metadata query_emb)
            nov
            (max (((description_relevance_of env flags metadata).sum +
                   (query_relevance_of env flags metadata query_emb).sum + nov)
                  / 3 / (num_videos : ℚ)) MIN_SCORE)) := by
  unfold scoring_after_check
  dsimp only
  rw [h]
  rfl

lemma scoring_after_check_shape (env : Env) (metadata : List VideoMetadata)
    (num_videos : ℕ) (query_emb : List ℚ) (is_check_only : Bool)
    (r : ScoreResponse)
    (h : scoring_after_check env metadata num_videos query_emb is_check_only = .ok r) :
    ∃ u d q n s, r = .extended u d q n s ∧ MIN_SCORE ≤ s := by
  unfold scoring_after_check at h
  dsimp only at h
  split at h
  · exact absurd h (by simp)
  · rename_i nov flags heq
    refine ⟨_, _, _, _, _, (Except.ok.inj h).symm, le_max_right _ _⟩

lemma run_ok_cases (env : Env) (videos : Videos) (is_check_only : Bool)
    (r : ScoreResponse)
    (h : _run_video_scoring env videos is_check_only = .ok r) :
    r = .short FAKE_VIDEO_PUNISHMENT ∨ r = .short MIN_SCORE ∨
    ∃ u d q n s, r = .extended u d q n s ∧ MIN_SCORE ≤ s := by
  unfold _run_video_scoring at h
  dsimp only at h
  split at h
  · exact Or.inl (Except.ok.inj h).symm
  · split at h
    · exact Or.inr (Or.inl (Except.ok.inj h).symm)
    · split at h
      · exact absurd h (by simp)
      · exact Or.inl (Except.ok.inj h).symm
      · split at h
        · exact absurd h (by simp)
        · split at h
          · exact Or.inl (Except.ok.inj h).symm
          · exact Or.inr (Or.inr (scoring_after_check_shape _ _ _ _ _ _ h))

/-- Claim C2: at the aggregation stage the final score is exactly
`(sum of description relevance + sum of query relevance + novelty total) / 3 /
num_videos`, with `num_videos` the originally requested count, clamped from
below by `MIN_SCORE`; and across all paths of `_run_video_scoring`, every
returned response carries either the punishment constant or a score at least
the floor - no other value below the floor is possible. -/
theorem final_score_aggregation :
    (∀ (env : Env) (metadata : List VideoMetadata) (num_videos : ℕ)
        (query_emb : List ℚ) (is_check_only : Bool) (nov : ℚ) (flags : List Bool),
        compute_novelty_score env.pc_matches (metadata.map VideoMetadata.video_emb)
            (!is_check_only) = .ok (nov, flags) →
        scoring_after_check env metadata num_videos query_emb is_check_only =
          .ok (.extended (flags.map (fun b => !b))
                (description_relevance_of env flags metadata)
                (query_relevance_of env flags metadata query_emb)
                nov
                (max (((description_relevance_of env flags metadata).sum +
                       (query_relevance_of env flags metadata query_emb).sum + nov)
                      / 3 / (num_videos : ℚ)) MIN_SCORE))) ∧
    (∀ (env : Env) (videos : Videos) (is_check_only : Bool) (r : ScoreResponse),
        _run_video_scoring env videos is_check_only = .ok r →
        r.score = FAKE_VIDEO_PUNISHMENT ∨ MIN_SCORE ≤ r.score) := by
  constructor
  · intro env metadata num_videos query_emb is_check_only nov flags h
    exact scoring_after_check_ok env metadata num_videos query_emb is_check_only
      nov flags h
  · intro env videos is_check_only r h
    rcases run_ok_cases env videos is_check_only r h with h1 | h1 | ⟨u, d, q, n, s, h1, hs⟩
    · left
      rw [h1]
      rfl
    · right
      rw [h1]
      exact le_refl _
    · right
      rw [h1]
      exact hs

/-- Witness for `final_score_aggregation` at concrete inputs: one surviving
item under `testEnv` (index scores `[1, 1/4]`, so novelty `3/4`, unflagged),
plus the floor-path response of the empty-filter batch. -/
theorem final_score_aggregation_witness :
    (compute_novelty_score testEnv.pc_matches ([mGood].map VideoMetadata.video_emb)
        (!false) = .ok (3/4, [false])) ∧
    scoring_after_check testEnv [mGood] 1 [1, 0] false =
      .ok (.extended ([false].map (fun b => !b))
            (description_relevance_of testEnv [false] [mGood])
            (query_relevance_of testEnv [false] [mGood] [1, 0])
            (3/4)
            (max (((description_relevance_of testEnv [false] [mGood]).sum +
                   (query_relevance_of testEnv [false] [mGood] [1, 0]).sum + 3/4)
                  / 3 / ((1 : ℕ) : ℚ)) MIN_SCORE)) ∧
    ((ScoreResponse.short MIN_SCORE).score = FAKE_VIDEO_PUNISHMENT ∨
      MIN_SCORE ≤ (ScoreResponse.short MIN_SCORE).score) := by
  have h : compute_novelty_score testEnv.pc_matches
      ([mGood].map VideoMetadata.video_emb) (!false) = .ok (3/4, [false]) := by
    norm_num [compute_novelty_score, gather_scores, query_pinecone, testEnv,
      mGood, DIFFERENCE_THRESHOLD, List.get?]
  exact ⟨h, final_score_aggregation.1 testEnv [mGood] 1 [1, 0] false (3/4) [false] h,
    final_score_aggregation.2 testEnv vEmptyFilter false (.short MIN_SCORE) rfl⟩

lemma maskFilter_nil_mask {α : Type _} (xs : List α) : maskFilter [] xs = [] := by
  simp [maskFilter]

lemma maskFilter_cons {α : Type _} (b : Bool) (bs : List Bool) (x : α) (xt : List α) :
    maskFilter (b :: bs) (x :: xt) =
      if b then maskFilter bs xt else x :: maskFilter bs xt := by
  by_cases hb : b <;> simp [maskFilter, List.filter_cons, hb]

lemma maskFilter_length_eq {α β : Type _} :
    ∀ (mask : List Bool) (xs : List α) (ys : List β), xs.length = ys.length →
      (maskFilter mask xs).length = (maskFilter mask ys).length
  | [], _, _, _ => by simp [maskFilter_nil_mask]
  | _ :: _, [], ys, h => by
    have hy : ys = [] := List.length_eq_zero.mp h.symm
    subst hy
    rfl
  | _ :: _, _ :: _, [], h => by simp at h
  | b :: bs, x :: xt, y :: yt, h => by
    have h2 : xt.length = yt.length := by simpa using h
    by_cases hb : b <;>
      simp [maskFilter_cons, hb, maskFilter_length_eq bs xt yt h2]

lemma maskFilter_length_count {α : Type _} :
    ∀ (mask : List Bool) (xs : List α), xs.length = mask.length →
      (maskFilter mask xs).length = mask.countP (fun b => !b)
  | [], xs, _ => by simp [maskFilter_nil_mask]
  | _ :: _, [], h => by simp at h
  | b :: bs, x :: xt, h => by
    have h2 : xt.length = bs.length := by simpa using h
    by_cases hb : b <;>
      simp [maskFilter_cons, hb, List.countP_cons, maskFilter_length_count bs xt h2]

lemma maskFilter_all_true {α : Type _} :
    ∀ (mask : List Bool), (∀ b ∈ mask, b = true) → ∀ xs : List α,
      maskFilter mask xs = []
  | [], _, xs => maskFilter_nil_mask xs
  | b :: bs, hall, [] => rfl
  | b :: bs, hall, x :: xt => by
    have hb : b = true := hall b (List.mem_cons_self _ _)
    have ht : ∀ c ∈ bs, c = true := fun c hc => hall c (List.mem_cons_of_mem _ hc)
    simp [maskFilter_cons, hb, maskFilter_all_true bs ht xt]

lemma map_not_all_true :
    ∀ flags : List Bool, (∀ b ∈ flags, b = true) →
      flags.map (fun b => !b) = List.replicate flags.length false
  | [], _ => rfl
  | b :: bs, hall => by
    have hb : b = true := hall b (List.mem_cons_self _ _)
    have ht : ∀ c ∈ bs, c = true := fun c hc => hall c (List.mem_cons_of_mem _ hc)
    simp [hb, map_not_all_true bs ht, List.replicate_succ]

lemma compute_novelty_all_flagged (pc_matches : List ℚ → ℕ → List ℚ)
    (embs : List (List ℚ)) (already_uploaded : Bool) (nov : ℚ) (flags : List Bool)
    (h : compute_novelty_score pc_matches embs already_uploaded = .ok (nov, flags))
    (hall : ∀ b ∈ flags, b = true) : nov = 0 := by
  unfold compute_novelty_score at h
  dsimp only at h
  split at h
  · exact absurd h (by simp)
  · rename_i scores heq
    have h2 := Except.ok.inj h
    injection h2 with h3 h4
    subst h3
    subst h4
    rw [zip_filter_map_eq]
    have hnil : scores.filter (fun s => !decide (s < DIFFERENCE_THRESHOLD)) = [] := by
      rw [List.filter_eq_nil]
      intro a ha
      have := hall (decide (a < DIFFERENCE_THRESHOLD)) (List.mem_map_of_mem _ ha)
      simp [this]
    rw [hnil]
    rfl

/-- Claim C9: the compaction step applies one and the same mask to the three
embedding sequences, the metadata sequence and the identifier sequence:
sequences of equal length stay equal in length after compaction, the
compacted length is exactly the number of unflagged positions, and the
response of the post-novelty stage carries `is_unique` flags that negate the
too-similar mask together with relevance sequences computed only from the
mask-compacted embeddings, so a flagged item contributes to neither. -/
theorem lockstep_compaction :
    (∀ (embeddings : Embeddings) (mask : List Bool),
        filter_embeddings embeddings mask =
          ⟨maskFilter mask embeddings.video, maskFilter mask embeddings.audio,
           maskFilter mask embeddings.description⟩) ∧
    (∀ {α β : Type} (mask : List Bool) (xs : List α) (ys : List β),
        xs.length = ys.length →
        (maskFilter mask xs).length = (maskFilter mask ys).length) ∧
    (∀ {α : Type} (mask : List Bool) (xs : List α), xs.length = mask.length →
        (maskFilter mask xs).length = mask.countP (fun b => !b)) ∧
    (∀ (env : Env) (metadata : List VideoMetadata) (num_videos : ℕ)
        (query_emb : List ℚ) (is_check_only : Bool) (nov : ℚ) (flags : List Bool)
        (r : ScoreResponse),
        compute_novelty_score env.pc_matches (metadata.map VideoMetadata.video_emb)
            (!is_check_only) = .ok (nov, flags) →
        scoring_after_check env metadata num_videos query_emb is_check_only = .ok r →
        ∃ s, r = .extended (flags.map (fun b => !b))
              (description_relevance_of env flags metadata)
              (query_relevance_of env flags metadata query_emb) nov s) := by
  refine ⟨fun _ _ => rfl, ?_, ?_, ?_⟩
  · intro α β mask xs ys h
    exact maskFilter_length_eq mask xs ys h
  · intro α mask xs h
    exact maskFilter_length_count mask xs h
  · intro env metadata num_videos query_emb is_check_only nov flags r h hr
    rw [scoring_after_check_ok env metadata num_videos query_emb is_check_only
      nov flags h] at hr
    exact ⟨_, (Except.ok.inj hr).symm⟩

/-- Witness for `lockstep_compaction` at concrete inputs. -/
theorem lockstep_compaction_witness :
    (maskFilter [true, false] [(1 : ℚ), 2]).length
      = (maskFilter [true, false] [(3 : ℕ), 4]).length ∧
    (maskFilter [true, false] [(1 : ℚ), 2]).length
      = [true, false].countP (fun b => !b) ∧
    ∃ s, (ScoreResponse.extended ([false].map (fun b => !b))
          (description_relevance_of testEnv [false] [mGood])
          (query_relevance_of testEnv [false] [mGood] [1, 0])
          (3/4)
          (max (((description_relevance_of testEnv [false] [mGood]).sum +
                 (query_relevance_of testEnv [false] [mGood] [1, 0]).sum + 3/4)
                / 3 / ((1 : ℕ) : ℚ)) MIN_SCORE))
        = .extended ([false].map (fun b => !b))
          (description_relevance_of testEnv [false] [mGood])
          (query_relevance_of testEnv [false] [mGood] [1, 0]) (3/4) s := by
  have h : compute_novelty_score testEnv.pc_matches
      ([mGood].map VideoMetadata.video_emb) (!false) = .ok (3/4, [false]) := by
    norm_num [compute_novelty_score, gather_scores, query_pinecone, testEnv,
      mGood, DIFFERENCE_THRESHOLD, List.get?]
  refine ⟨lockstep_compaction.2.1 [true, false] [(1 : ℚ), 2] [(3 : ℕ), 4] rfl,
    lockstep_compaction.2.2.1 [true, false] [(1 : ℚ), 2] rfl,
    lockstep_compaction.2.2.2 testEnv [mGood] 1 [1, 0] false (3/4) [false] _ h
      (scoring_after_check_ok testEnv [mGood] 1 [1, 0] false (3/4) [false] h)⟩

/-- Claim C10: when the novelty stage flags every filtered item as too
similar, the batch total novelty is zero and the post-check stage still
returns the extended response form, with an all-false `is_unique` sequence,
empty relevance sequences, novelty total zero, and the floor score
`MIN_SCORE`; the punishment constant is not produced on this path. -/
theorem all_too_similar_floor (env : Env) (metadata : List VideoMetadata)
    (num_videos : ℕ) (query_emb : List ℚ) (is_check_only : Bool)
    (nov : ℚ) (flags : List Bool)
    (h : compute_novelty_score env.pc_matches (metadata.map VideoMetadata.video_emb)
          (!is_check_only) = .ok (nov, flags))
    (hall : ∀ b ∈ flags, b = true) :
    nov = 0 ∧
    scoring_after_check env metadata num_videos query_emb is_check_only =
      .ok (.extended (List.replicate flags.length false) [] [] 0 MIN_SCORE) := by
  have hnov : nov = 0 :=
    compute_novelty_all_flagged env.pc_matches _ _ nov flags h hall
  subst hnov
  refine ⟨rfl, ?_⟩
  rw [scoring_after_check_ok env metadata num_videos query_emb is_check_only
    0 flags h]
  rw [map_not_all_true flags hall]
  simp only [description_relevance_of, query_relevance_of,
    maskFilter_all_true flags hall, List.zip_nil_left, List.map_nil,
    List.sum_nil]
  norm_num [MIN_SCORE]

/-- Witness for `all_too_similar_floor`: under `dupEnv` the single item of
`vGoodOne` is flagged as a duplicate and the stage yields the floor
response. -/
theorem all_too_similar_floor_witness :
    (0 : ℚ) = 0 ∧
    scoring_after_check dupEnv [mGood] 1 [1, 0] false =
      .ok (.extended (List.replicate [true].length false) [] [] 0 MIN_SCORE) :=
  all_too_similar_floor dupEnv [mGood] 1 [1, 0] false 0 [true]
    (by norm_num [compute_novelty_score, gather_scores, query_pinecone, dupEnv,
      mGood, DIFFERENCE_THRESHOLD, List.get?])
    (by decide)

lemma cons_eraseIdx_perm (l : List VideoMetadata) (i : ℕ) (h : i < l.length) :
    (l[i] :: l.eraseIdx i).Perm l := by
  have h1 := List.perm_cons_erase (List.getElem_mem h)
  have h2 := List.erase_getElem h (l := l)
  exact ((h2.cons l[i]).symm.trans h1.symm)

lemma grv_loop_all_timeout (dl : VideoMetadata → DLResult) :
    ∀ (n : ℕ) (pool : List VideoMetadata), pool.length = n → pool ≠ [] →
      (∀ m ∈ pool, dl m = .timeout) →
      ∀ (picks : List ℕ) (tried : List VideoMetadata),
      ∃ (m : VideoMetadata) (rest : List VideoMetadata),
        grv_loop dl picks pool tried = (.ok (some (m, none)), tried ++ rest) ∧
        rest.Perm pool ∧ rest ≠ [] ∧ rest.getLast? = some m := by
  intro n
  induction n with
  | zero =>
    intro pool hlen hne
    cases pool with
    | nil => exact absurd rfl hne
    | cons x xs => simp at hlen
  | succ k ih =>
    intro pool hlen hne hto picks tried
    obtain ⟨x, xs, rfl⟩ : ∃ x xs, pool = x :: xs := by
      cases pool with
      | nil => exact absurd rfl hne
      | cons x xs => exact ⟨x, xs, rfl⟩
    have hlt : picks.headD 0 % (x :: xs).length < (x :: xs).length :=
      Nat.mod_lt _ (by simp)
    have hm : (x :: xs).getD (picks.headD 0 % (x :: xs).length) x
        = (x :: xs)[picks.headD 0 % (x :: xs).length] :=
      List.getD_eq_getElem _ _ hlt
    have hdl : dl ((x :: xs).getD (picks.headD 0 % (x :: xs).length) x) = .timeout := by
      rw [hm]
      exact hto _ (List.getElem_mem hlt)
    have hstep : grv_loop dl picks (x :: xs) tried
        = grv_loop dl picks.tail
            ((x :: xs).eraseIdx (picks.headD 0 % (x :: xs).length))
            (tried ++ [(x :: xs).getD (picks.headD 0 % (x :: xs).length) x]) := by
      rw [grv_loop.eq_def]
      simp only [hdl]
    rcases hxe : (x :: xs).eraseIdx (picks.headD 0 % (x :: xs).length) with _ | ⟨y, ys⟩
    · -- the pool had a single element: the recursive call hits the empty arm
      have hxs : xs = [] := by
        have := List.length_eraseIdx_add_one hlt
        rw [hxe] at this
        simp at this
        simpa using this
      subst hxs
      have hidx : picks.headD 0 % ([x] : List VideoMetadata).length = 0 := by
        simpa using Nat.lt_one_iff.mp (by simpa using hlt)
      refine ⟨x, [x], ?_, by simp, by simp, by simp⟩
      rw [hstep, hxe, hidx]
      rw [grv_loop.eq_def]
      simp
    · have hlen' : ((x :: xs).eraseIdx (picks.headD 0 % (x :: xs).length)).length = k := by
        have := List.length_eraseIdx_add_one hlt
        omega
      have hto' : ∀ m ∈ (x :: xs).eraseIdx (picks.headD 0 % (x :: xs).length),
          dl m = .timeout :=
        fun m hmem => hto m ((List.eraseIdx_sublist _ _).mem hmem)
      obtain ⟨m', rest', heq, hperm, hne', hlast⟩ :=
        ih _ hlen' (by rw [hxe]; simp) hto' picks.tail
          (tried ++ [(x :: xs).getD (picks.headD 0 % (x :: xs).length) x])
      refine ⟨m', (x :: xs).getD (picks.headD 0 % (x :: xs).length) x :: rest',
        ?_, ?_, by simp, ?_⟩
      · rw [hstep, heq]
        simp
      · have := (hperm.cons ((x :: xs).getD (picks.headD 0 % (x :: xs).length) x))
        rw [hm] at this ⊢
        exact this.trans (cons_eraseIdx_perm (x :: xs) _ hlt)
      · rcases rest' with _ | ⟨r, rs⟩
        · exact absurd rfl hne'
        · simpa using hlast

/-- Claim C5: when every candidate in the filtered pool times out, the
drawing loop of `get_random_video` draws without replacement (the attempted
candidates form a permutation of the pool, so none is retried), terminates
after exactly as many attempts as there are candidates (in particular at most
the pool size), and falls back to returning the last drawn candidate with no
media (description-only verification) instead of failing or punishing. -/
theorem download_audit_all_timeouts (dl : VideoMetadata → DLResult)
    (picks : List ℕ) (choice : ℕ) (pool : List VideoMetadata)
    (hne : pool ≠ []) (hto : ∀ m ∈ pool, dl m = .timeout) :
    ∃ m rest,
      get_random_video dl picks choice pool true = .ok (some (m, none)) ∧
      grv_loop dl picks pool [] = (.ok (some (m, none)), rest) ∧
      rest.Perm pool ∧ rest.length = pool.length ∧ rest.getLast? = some m := by
  obtain ⟨m, rest, heq, hperm, hne', hlast⟩ :=
    grv_loop_all_timeout dl pool.length pool rfl hne hto picks []
  rw [List.nil_append] at heq
  refine ⟨m, rest, ?_, heq, hperm, hperm.length_eq, hlast⟩
  unfold get_random_video
  rw [heq]
  simp

/-- Witness for `download_audit_all_timeouts`: the two-item pool under
`testEnv`, whose download oracle times out on every candidate. -/
theorem download_audit_all_timeouts_witness :
    ([mGood, mGoodDup] ≠ ([] : List VideoMetadata)) ∧
    (∀ m ∈ [mGood, mGoodDup], testEnv.dl m = .timeout) ∧
    ∃ m rest,
      get_random_video testEnv.dl testEnv.picks testEnv.choice [mGood, mGoodDup] true
        = .ok (some (m, none)) ∧
      grv_loop testEnv.dl testEnv.picks [mGood, mGoodDup] []
        = (.ok (some (m, none)), rest) ∧
      rest.Perm [mGood, mGoodDup] ∧
      rest.length = ([mGood, mGoodDup] : List VideoMetadata).length ∧
      rest.getLast? = some m :=
  ⟨by simp, by decide,
   download_audit_all_timeouts testEnv.dl testEnv.picks testEnv.choice
     [mGood, mGoodDup] (by simp) (by decide)⟩

lemma sorted_ge_head_mem (l : List ℚ) (hne : l ≠ []) :
    (l.insertionSort (· ≥ ·)).headD 0 ∈ l := by
  have hperm := List.perm_insertionSort (· ≥ ·) l
  rcases hs : l.insertionSort (· ≥ ·) with _ | ⟨a, t⟩
  · rw [hs] at hperm
    exact absurd hperm.symm.eq_nil hne
  · rw [hs] at hperm
    have := hperm.mem_iff.mp (List.mem_cons_self a t)
    simpa using this

lemma sorted_ge_head_max (l : List ℚ) (x : ℚ) (hx : x ∈ l) :
    x ≤ (l.insertionSort (· ≥ ·)).headD 0 := by
  have hperm := List.perm_insertionSort (· ≥ ·) l
  have hsorted := List.sorted_insertionSort (· ≥ ·) l
  have hx2 : x ∈ l.insertionSort (· ≥ ·) := hperm.mem_iff.mpr hx
  rcases hs : l.insertionSort (· ≥ ·) with _ | ⟨a, t⟩
  · rw [hs] at hx2
    cases hx2
  · rw [hs] at hx2 hsorted
    rcases List.mem_cons.mp hx2 with rfl | hxt
    · simp
    · simpa using List.rel_of_sorted_cons hsorted x hxt

lemma too_similar_flag_eq (sim : List ℚ → List ℚ → ℚ) (stored : List (List ℚ))
    (hne : stored ≠ []) (e : List ℚ) :
    (!decide (1 - (topMatches sim stored e 1).getD 0 0 < DIFFERENCE_THRESHOLD))
      = decide (∀ w ∈ stored, sim e w ≤ SIMILARITY_THRESHOLD) := by
  have hmapne : stored.map (sim e) ≠ [] := by simpa using hne
  have hhead : (topMatches sim stored e 1).getD 0 0
      = ((stored.map (sim e)).insertionSort (· ≥ ·)).headD 0 := by
    unfold topMatches
    rcases hs : (stored.map (sim e)).insertionSort (· ≥ ·) with _ | ⟨a, t⟩ <;>
      simp [hs]
  rw [hhead, ← decide_not]
  refine decide_eq_decide.mpr ?_
  unfold SIMILARITY_THRESHOLD
  constructor
  · intro hns w hw
    have hle := sorted_ge_head_max (stored.map (sim e)) (sim e w)
      (List.mem_map_of_mem _ hw)
    have h2 : ((stored.map (sim e)).insertionSort (· ≥ ·)).headD 0
        ≤ 1 - DIFFERENCE_THRESHOLD := by linarith
    linarith
  · intro hall hlt
    have hmem := sorted_ge_head_mem (stored.map (sim e)) hmapne
    obtain ⟨w, hw, hwe⟩ := List.mem_map.mp hmem
    have := hall w hw
    rw [hwe] at this
    linarith

/-- Claim C7 (amended): the diagnostic issues single-match (`top_k = 1`)
queries against the index and performs no write; it counts exactly the items
whose similarity to every stored index vector is at most the 0.95 threshold.
In particular, a batch of items all dissimilar to the stored corpus counts as
fully unique regardless of within-batch pairwise similarity: a near-duplicate
pair inside the (not yet indexed) batch is invisible to it, and the count
drops to N-1 only when exactly one item has a near-duplicate already stored
in the index. -/
theorem unique_count_index_only (sim : List ℚ → List ℚ → ℚ)
    (stored : List (List ℚ)) (videos : Videos) (hne : stored ≠ []) :
    get_num_unique_videos sim stored videos
      = .ok ((videos.video_metadata.map VideoMetadata.video_emb).countP
          (fun e => decide (∀ w ∈ stored, sim e w ≤ SIMILARITY_THRESHOLD))) := by
  have hlen : ∀ e ∈ videos.video_metadata.map VideoMetadata.video_emb,
      (0 : ℕ) < (topMatches sim stored e 1).length := by
    intro e _
    unfold topMatches
    have h1 : (stored.map (sim e)).insertionSort (· ≥ ·) ≠ [] := by
      intro h
      have hperm := List.perm_insertionSort (· ≥ ·) (stored.map (sim e))
      rw [h] at hperm
      exact (by simpa using hne : stored.map (sim e) ≠ []) hperm.symm.eq_nil
    rcases hs : (stored.map (sim e)).insertionSort (· ≥ ·) with _ | ⟨a, t⟩
    · exact absurd hs h1
    · simp [hs]
  unfold get_num_unique_videos compute_novelty_score
  dsimp only
  rw [show (if (false : Bool) then 2 else 1) = 1 from rfl,
    show (if (false : Bool) then 1 else 0) = 0 from rfl]
  rw [gather_scores_map _ _ _ _ hlen]
  dsimp only
  rw [List.countP_map, List.countP_map]
  congr 1
  refine List.countP_congr ?_
  intro e _
  have h3 := too_similar_flag_eq sim stored hne e
  constructor
  · intro h1
    rw [← h3]
    simpa [Function.comp] using h1
  · intro h1
    have h2 : (!decide (1 - (topMatches sim stored e 1).getD 0 0
        < DIFFERENCE_THRESHOLD)) = true := by rw [h3]; exact h1
    simpa [Function.comp] using h2

/-- Claim C7, counterexample to the claim as stated: `vDupPair` holds exactly
one near-duplicate pair (its two items have identical embeddings, similarity
1 under `simEq`), none of its items is present in the index `storedOrth`, and
the diagnostic returns 2, not `2 - 1`: single-match index queries cannot see
duplicates internal to an un-indexed batch. -/
theorem internal_duplicates_uncounted :
    simEq mGood.video_emb mGoodDup.video_emb = 1 ∧
    get_num_unique_videos simEq storedOrth vDupPair = .ok 2 ∧ (2 : ℕ) ≠ 2 - 1 := by
  refine ⟨by norm_num [simEq, mGood, mGoodDup], ?_, by norm_num⟩
  norm_num [get_num_unique_videos, compute_novelty_score, gather_scores,
    query_pinecone, topMatches, simEq, storedOrth, vDupPair, mGood, mGoodDup,
    DIFFERENCE_THRESHOLD, List.get?, List.insertionSort, List.orderedInsert]

/-- Witness for `unique_count_index_only` at a concrete input. -/
theorem unique_count_index_only_witness :
    (storedOrth ≠ []) ∧
    get_num_unique_videos simEq storedOrth vDupPair
      = .ok ((vDupPair.video_metadata.map VideoMetadata.video_emb).countP
          (fun e => decide (∀ w ∈ storedOrth, simEq e w ≤ SIMILARITY_THRESHOLD))) :=
  ⟨by simp [storedOrth],
   unique_count_index_only simEq storedOrth vDupPair (by simp [storedOrth])⟩

/-- Claim C8, counterexample: the mutating entry point
`score_and_upload_videos` returns the bare number `scores_dict["score"]`
(here the punishment constant), which is not a dictionary, so it produces
neither of the two claimed response forms. -/
theorem mutating_entry_returns_number :
    score_and_upload_videos testEnv vBadOnly = .ok (.num FAKE_VIDEO_PUNISHMENT) ∧
    PyValue.isDict (.num FAKE_VIDEO_PUNISHMENT) = false :=
  ⟨rfl, rfl⟩

/-- Claim C8 (amended): the internal routine and hence the dry-run entry
point produce only the two dictionary forms - the short form, whose score is
always the punishment constant or the floor, or the extended form - while the
mutating entry point returns the bare score number extracted from such a
dictionary, never the dictionary itself. -/
theorem response_forms (env : Env) (videos : Videos) :
    (∀ p, score_videos_for_testing env videos = .ok p →
        ∃ r, p = PyValue.dict r ∧
          ((∃ s, r = .short s ∧ (s = FAKE_VIDEO_PUNISHMENT ∨ s = MIN_SCORE)) ∨
           ∃ u d q n s, r = .extended u d q n s)) ∧
    (∀ p, score_and_upload_videos env videos = .ok p →
        p.isDict = false ∧
        ∃ r, _run_video_scoring env videos false = .ok r ∧
          p = PyValue.num r.score) := by
  constructor
  · intro p hp
    unfold score_videos_for_testing at hp
    cases hrun : _run_video_scoring env videos true with
    | error e =>
      rw [hrun] at hp
      exact absurd hp (by simp)
    | ok r =>
      rw [hrun] at hp
      have hpr : p = .dict r := (Except.ok.inj hp).symm
      refine ⟨r, hpr, ?_⟩
      rcases run_ok_cases env videos true r hrun with h1 | h1 | ⟨u, d, q, n, s, h1, _⟩
      · exact Or.inl ⟨_, h1, Or.inl rfl⟩
      · exact Or.inl ⟨_, h1, Or.inr rfl⟩
      · exact Or.inr ⟨u, d, q, n, s, h1⟩
  · intro p hp
    unfold score_and_upload_videos at hp
    cases hrun : _run_video_scoring env videos false with
    | error e =>
      rw [hrun] at hp
      exact absurd hp (by simp)
    | ok r =>
      rw [hrun] at hp
      have hpr : p = .num r.score := (Except.ok.inj hp).symm
      refine ⟨?_, r, rfl, hpr⟩
      rw [hpr]
      rfl

/-- Witness for `response_forms` at concrete inputs: the empty-filter batch
under both entry points. -/
theorem response_forms_witness :
    (∃ r, PyValue.dict (.short MIN_SCORE) = PyValue.dict r ∧
        ((∃ s, r = .short s ∧ (s = FAKE_VIDEO_PUNISHMENT ∨ s = MIN_SCORE)) ∨
         ∃ u d q n s, r = .extended u d q n s)) ∧
    ((PyValue.num MIN_SCORE).isDict = false ∧
      ∃ r, _run_video_scoring testEnv vEmptyFilter false = .ok r ∧
        PyValue.num MIN_SCORE = PyValue.num r.score) :=
  ⟨(response_forms testEnv vEmptyFilter).1 (PyValue.dict (.short MIN_SCORE)) rfl,
   (response_forms testEnv vEmptyFilter).2 (PyValue.num MIN_SCORE) rfl⟩
